import Mathlib

/-!
Verification of the identity-resolution / duplicate-prevention / schema-migration
subsystem of the OCR repository (`src/user_management/*`,
`src/aadhaar_extractor_with_sql.py`).

The Python code is shallowly embedded: SQLite tables become lists of rows,
stateful methods become explicit state-passing functions, raised exceptions
become `Except` / explicit result variants, and the nondeterministic
`uuid.uuid4()` user-id generator becomes a counter drawn from the state.
Timestamps (ISO strings in the code, compared lexicographically, which agrees
with chronological order) are modelled as naturals.
-/

namespace OCR

/-! ## IdentifierNormalizer

`normalize_aadhaar` / `normalize_pan` from
`src/user_management/duplicate_prevention_service.py` (lines 37-65).
`normalize_aadhaar` is `re.sub(r'[^\dX]', '', str(x).upper())`:
upper-case, then keep only digits and `X`.
`normalize_pan` is `re.sub(r'[^A-Z0-9]', '', str(x).upper())`:
upper-case, then keep only `A`-`Z` and `0`-`9`.
The length/format warnings in the Python code only log; they do not change
the returned value, so they are not modelled. -/

/-- Characters kept by `re.sub(r'[^\dX]', '', ...)`: decimal digits and `X`. -/
def aadhaarChar (c : Char) : Bool :=
  c.isDigit || c = 'X'

/-- Characters kept by `re.sub(r'[^A-Z0-9]', '', ...)`. -/
def panChar (c : Char) : Bool :=
  ('A' ≤ c && c ≤ 'Z') || c.isDigit

/-- `normalize_aadhaar`: upper-case the string, then drop every character that
is not a digit or `X`.  (`if not aadhaar_number: return ""` is the same
function at the empty string.) -/
def normalize_aadhaar (s : String) : String :=
  ⟨(s.data.map Char.toUpper).filter aadhaarChar⟩

/-- `normalize_pan`: upper-case the string, then drop every character that is
not an upper-case letter or digit. -/
def normalize_pan (s : String) : String :=
  ⟨(s.data.map Char.toUpper).filter panChar⟩

/-- Python `str.strip()` / SQL `TRIM` (whitespace at both ends), defined on
the character list so that it evaluates inside the kernel (`String.trim`
does not). -/
def strip (s : String) : String :=
  ⟨((s.data.dropWhile Char.isWhitespace).reverse.dropWhile
      Char.isWhitespace).reverse⟩

/-- Python `str.upper()` (basic-latin case mapping, like `String.toUpper`). -/
def upper (s : String) : String :=
  ⟨s.data.map Char.toUpper⟩

/-! ## UserIDManager (`src/user_management/user_id_manager.py`)

The two SQLite `users` tables (one per database file) become two lists of
rows; the thread-guarded cache becomes an association list keyed by the
normalized Aadhaar number; `uuid.uuid4()` becomes a counter in the state.
Raised exceptions are modelled with `Except`-style result values paired with
the (possibly mutated) state. -/

inductive Db where
  | aadhaar
  | pan
deriving DecidableEq, Repr

/-- A row of the `users` table (`user_id, aadhaar_number, primary_name,
document_count`; the `created_at`/`updated_at` timestamps are not read by any
operation modelled here). -/
structure UserRow where
  user_id : Nat
  aadhaar_number : String
  primary_name : String
  document_count : Nat
deriving DecidableEq, Repr

/-- The dict built by `get_user_by_aadhaar` / `create_user` and stored in the
cache: the row fields plus `source_db`. -/
structure CachedUser where
  user_id : Nat
  aadhaar_number : String
  primary_name : String
  document_count : Nat
  source_db : Db
deriving DecidableEq, Repr

/-- State of a `UserIDManager`: the `users` tables of the two databases, the
in-memory cache, and the supply for fresh user ids. -/
structure ManagerState where
  aadhaarUsers : List UserRow
  panUsers : List UserRow
  cache : List (String × CachedUser)
  nextId : Nat
deriving DecidableEq, Repr

/-- A fresh manager over empty stores (the state right after `__init__` has
created the empty `users` tables). -/
def freshManager (n : Nat) : ManagerState :=
  { aadhaarUsers := [], panUsers := [], cache := [], nextId := n }

def ManagerState.usersIn (st : ManagerState) : Db → List UserRow
  | .aadhaar => st.aadhaarUsers
  | .pan => st.panUsers

def ManagerState.setUsers (st : ManagerState) : Db → List UserRow → ManagerState
  | .aadhaar, l => { st with aadhaarUsers := l }
  | .pan, l => { st with panUsers := l }

/-- Python `dict.get` on the cache. -/
def cacheFind (k : String) : List (String × CachedUser) → Option CachedUser
  | [] => none
  | (k', v) :: t => if k' = k then some v else cacheFind k t

/-- Python `self.cache[k] = v` (replace or insert). -/
def cachePut (k : String) (v : CachedUser) :
    List (String × CachedUser) → List (String × CachedUser)
  | [] => [(k, v)]
  | (k', v') :: t => if k' = k then (k, v) :: t else (k', v') :: cachePut k v t

/-- Python `self.cache.pop(k, None)`. -/
def cacheDrop (k : String) : List (String × CachedUser) → List (String × CachedUser)
  | [] => []
  | (k', v') :: t => if k' = k then t else (k', v') :: cacheDrop k t

/-- `SELECT ... FROM users WHERE aadhaar_number = ?` followed by `fetchone`. -/
def findByAadhaar (norm : String) : List UserRow → Option UserRow
  | [] => none
  | r :: t => if r.aadhaar_number = norm then some r else findByAadhaar norm t

/-- `SELECT ... FROM users WHERE user_id = ?` followed by `fetchone`. -/
def findById (uid : Nat) : List UserRow → Option UserRow
  | [] => none
  | r :: t => if r.user_id = uid then some r else findById uid t

def UserRow.toCached (r : UserRow) (db : Db) : CachedUser :=
  { user_id := r.user_id, aadhaar_number := r.aadhaar_number,
    primary_name := r.primary_name, document_count := r.document_count,
    source_db := db }

/-- `get_user_by_aadhaar`: `None` guard, cache-first lookup, then the aadhaar
database, then the pan database; a database hit is added to the cache. -/
def get_user_by_aadhaar (st : ManagerState) (a : String) :
    Option CachedUser × ManagerState :=
  if a = "" then (none, st)
  else
    let norm := normalize_aadhaar a
    match cacheFind norm st.cache with
    | some u => (some u, st)
    | none =>
      match findByAadhaar norm st.aadhaarUsers with
      | some r =>
        (some (r.toCached .aadhaar),
         { st with cache := cachePut norm (r.toCached .aadhaar) st.cache })
      | none =>
        match findByAadhaar norm st.panUsers with
        | some r =>
          (some (r.toCached .pan),
           { st with cache := cachePut norm (r.toCached .pan) st.cache })
        | none => (none, st)

/-- `get_user_by_id`: scans the aadhaar database, then the pan database; no
cache involvement.  (The `if not user_id` guard never fires for the opaque
ids modelled here.) -/
def get_user_by_id (st : ManagerState) (uid : Nat) : Option CachedUser :=
  match findById uid st.aadhaarUsers with
  | some r => some (r.toCached .aadhaar)
  | none =>
    match findById uid st.panUsers with
    | some r => some (r.toCached .pan)
    | none => none

inductive UMError where
  | valueError
  | createFailed
deriving DecidableEq, Repr

/-- `create_user`: validates that identifier and name are non-empty, generates
a fresh id, and inserts `(user_id, normalized, name.strip(), 1)` into the
target database.  The `UNIQUE` constraint on `aadhaar_number` makes the insert
fail when the normalized number is already present; that `IntegrityError` is
caught and answered by re-reading the existing user. -/
def create_user (st : ManagerState) (a name : String) (db : Db) :
    Except UMError Nat × ManagerState :=
  if a = "" ∨ name = "" then (.error .valueError, st)
  else
    let norm := normalize_aadhaar a
    let uid := st.nextId
    let st := { st with nextId := st.nextId + 1 }
    if (findByAadhaar norm (st.usersIn db)).isSome then
      -- sqlite3.IntegrityError, "UNIQUE constraint failed" branch
      match get_user_by_aadhaar st a with
      | (some u, st') => (.ok u.user_id, st')
      | (none, st') => (.error .createFailed, st')
    else
      let row : UserRow :=
        { user_id := uid, aadhaar_number := norm,
          primary_name := strip name, document_count := 1 }
      let st' := st.setUsers db (st.usersIn db ++ [row])
      (.ok uid,
       { st' with cache := cachePut norm (row.toCached db) st'.cache })

/-- `update_user_document_count`: locates the user's database via
`get_user_by_id`, adds `increment` to its `document_count`, and drops the
(now stale) cache entry when the user has a truthy `aadhaar_number`. -/
def update_user_document_count (st : ManagerState) (uid : Nat)
    (increment : Nat) : Bool × ManagerState :=
  match get_user_by_id st uid with
  | none => (false, st)
  | some u =>
    let db := u.source_db
    let rows := (st.usersIn db).map fun r =>
      if r.user_id = uid then { r with document_count := r.document_count + increment }
      else r
    let st' := st.setUsers db rows
    if u.aadhaar_number ≠ "" then
      (true, { st' with cache := cacheDrop u.aadhaar_number st'.cache })
    else (true, st')

/-- `get_or_create_user_id`: validate, look up by Aadhaar; on a hit bump the
document count and return the existing id, otherwise create a new user in
`preferred_db or self.aadhaar_db_path`. -/
def get_or_create_user_id (st : ManagerState) (a name : String)
    (preferred_db : Option Db) : Except UMError Nat × ManagerState :=
  if a = "" ∨ name = "" then (.error .valueError, st)
  else
    match get_user_by_aadhaar st a with
    | (some u, st1) =>
      let (_, st2) := update_user_document_count st1 u.user_id 1
      (.ok u.user_id, st2)
    | (none, st1) => create_user st1 a name (preferred_db.getD .aadhaar)

/-- The document count the manager itself reports for a user id. -/
def docCountOf (st : ManagerState) (uid : Nat) : Option Nat :=
  (get_user_by_id st uid).map (·.document_count)

/-! ## Document stores and the DuplicateDataIdentifier
(`src/user_management/duplicate_data_identifier.py`)

A document database is modelled as its two tables: `aadhaar_documents` /
`pan_documents` (`DocRow`) and `extracted_fields` (`FieldRow`).  The two
stores have slightly different `extracted_fields` columns ("Aadhaar Number",
`Gender`, `Address` vs "PAN Number", "Father's Name"); one row type carries
all of them as options, with `identifier` standing for the store's
identifier column.  Timestamps are naturals; the `extraction_timestamp`
column is selected by the scanner but never read afterwards, so it is not
modelled. -/

structure DocRow where
  id : Nat
  file_path : String
  extraction_confidence : Option Nat
  user_id : Option Nat
  created_at : Nat
deriving DecidableEq, Repr

structure FieldRow where
  id : Nat
  document_id : Nat
  name : Option String
  dob : Option String
  gender : Option String
  fathers_name : Option String
  address : Option String
  identifier : Option String
  user_id : Option Nat
deriving DecidableEq, Repr

structure Store where
  docs : List DocRow
  fields : List FieldRow
deriving DecidableEq, Repr

/-- A row of the scanner's per-group detail query (`extracted_fields` joined
with its parent document row). -/
structure ScanRecord where
  field_id : Nat
  document_id : Nat
  name : Option String
  dob : Option String
  gender : Option String
  fathers_name : Option String
  address : Option String
  file_path : String
  extraction_confidence : Option Nat
  created_at : Nat
deriving DecidableEq, Repr

/-- The scanner's `WHERE` clause on the identifier column:
`IS NOT NULL AND != '' AND LENGTH(TRIM(...)) > 0`. -/
def validIdent : Option String → Option String
  | none => none
  | some s => if s = "" ∨ strip s = "" then none else some s

/-- The multiset of identifier values the `GROUP BY` query ranges over. -/
def validKeys (s : Store) : List String :=
  s.fields.filterMap fun f => validIdent f.identifier

/-- `COUNT(*)` of one `GROUP BY` bucket. -/
def countValid (s : Store) (v : String) : Nat :=
  (validKeys s).count v

/-- Primary-key lookup `ON ef.document_id = ad.id`. -/
def findDoc (docId : Nat) : List DocRow → Option DocRow
  | [] => none
  | d :: t => if d.id = docId then some d else findDoc docId t

/-- `ORDER BY ad.created_at ASC` (stable insertion sort). -/
def insertByCreated (r : ScanRecord) : List ScanRecord → List ScanRecord
  | [] => [r]
  | x :: xs =>
    if x.created_at ≤ r.created_at then x :: insertByCreated r xs
    else r :: x :: xs

def sortByCreated : List ScanRecord → List ScanRecord
  | [] => []
  | x :: xs => insertByCreated x (sortByCreated xs)

/-- The aadhaar detail query: fields with the group's identifier value joined
with their document rows, ordered by the document `created_at`. -/
def joinedRecords (s : Store) (v : String) : List ScanRecord :=
  sortByCreated <| s.fields.filterMap fun f =>
    if f.identifier = some v then
      (findDoc f.document_id s.docs).map fun d =>
        { field_id := f.id, document_id := f.document_id, name := f.name,
          dob := f.dob, gender := f.gender, fathers_name := f.fathers_name,
          address := f.address, file_path := d.file_path,
          extraction_confidence := d.extraction_confidence,
          created_at := d.created_at }
    else none

/-- Python `set` built by repeated `add`, in insertion order. -/
def setInsert (x : String) (l : List String) : List String :=
  if x ∈ l then l else l ++ [x]

/-- The `analysis` dict of a duplicate group.  The aadhaar scanner fills
`same_gender`/`unique_genders`, the pan scanner fills
`same_father_name`/`unique_father_names`; the respectively absent keys keep
their initial values. -/
structure Analysis where
  same_name : Bool
  same_dob : Bool
  same_gender : Bool
  same_father_name : Bool
  unique_names : List String
  unique_dobs : List String
  unique_genders : List String
  unique_father_names : List String
  confidence_scores : List Nat
  file_paths : List String
  avg_confidence : ℚ
  earliest : Option Nat
  latest : Option Nat
deriving DecidableEq, Repr

structure DupGroup where
  identifier : String
  normalized : String
  duplicate_count : Nat
  records : List ScanRecord
  analysis : Analysis
deriving DecidableEq, Repr

/-- Truthy string option (Python `if record[i]:`). -/
def truthy : Option String → Option String
  | none => none
  | some s => if s = "" then none else some s

def collectSet (f : ScanRecord → Option String) (recs : List ScanRecord) :
    List String :=
  recs.foldl (fun acc r => match f r with
    | some x => setInsert x acc
    | none => acc) []

/-- The aadhaar group analysis (`scan_aadhaar_duplicates`, lines 137-198):
`names` collects `strip().upper()` of truthy names, `dobs` raw truthy dobs,
`genders` upper-cased truthy genders; `same_*` is "at most one distinct
value"; confidences default to 0; the date range is min/max of the
documents' `created_at`. -/
def analyzeAadhaar (recs : List ScanRecord) : Analysis :=
  let names := collectSet (fun r => (truthy r.name).map fun n => upper (strip n)) recs
  let dobs := collectSet (fun r => truthy r.dob) recs
  let genders := collectSet (fun r => (truthy r.gender).map upper) recs
  let confs := recs.map fun r => r.extraction_confidence.getD 0
  { same_name := names.length ≤ 1
    same_dob := dobs.length ≤ 1
    same_gender := genders.length ≤ 1
    same_father_name := true
    unique_names := names
    unique_dobs := dobs
    unique_genders := genders
    unique_father_names := []
    confidence_scores := confs
    file_paths := recs.map (·.file_path)
    avg_confidence := (confs.sum : ℚ) / (confs.length : ℚ)
    earliest := (recs.map (·.created_at)).min?
    latest := (recs.map (·.created_at)).max? }

/-- The pan group analysis (`scan_pan_duplicates`, lines 256-316). -/
def analyzePan (recs : List ScanRecord) : Analysis :=
  let names := collectSet (fun r => (truthy r.name).map fun n => upper (strip n)) recs
  let fathers := collectSet (fun r => (truthy r.fathers_name).map fun n => upper (strip n)) recs
  let dobs := collectSet (fun r => truthy r.dob) recs
  let confs := recs.map fun r => r.extraction_confidence.getD 0
  { same_name := names.length ≤ 1
    same_dob := dobs.length ≤ 1
    same_gender := true
    same_father_name := fathers.length ≤ 1
    unique_names := names
    unique_dobs := dobs
    unique_genders := []
    unique_father_names := fathers
    confidence_scores := confs
    file_paths := recs.map (·.file_path)
    avg_confidence := (confs.sum : ℚ) / (confs.length : ℚ)
    earliest := (recs.map (·.created_at)).min?
    latest := (recs.map (·.created_at)).max? }

def mkAadhaarGroup (s : Store) (v : String) : DupGroup :=
  let recs := joinedRecords s v
  { identifier := v, normalized := normalize_aadhaar v,
    duplicate_count := countValid s v, records := recs,
    analysis := analyzeAadhaar recs }

def mkPanGroup (s : Store) (v : String) : DupGroup :=
  let recs := joinedRecords s v
  { identifier := v, normalized := normalize_pan v,
    duplicate_count := countValid s v, records := recs,
    analysis := analyzePan recs }

def mkGroups (mk : Store → String → DupGroup) (s : Store) :
    List String → List DupGroup
  | [] => []
  | v :: t =>
    if 1 < countValid s v then mk s v :: mkGroups mk s t
    else mkGroups mk s t

/-- `scan_aadhaar_duplicates`: one group per distinct raw stored
"Aadhaar Number" value occurring more than once.  (The SQL `ORDER BY count
DESC, value` only orders the report; the set of groups is unaffected and the
order is not modelled.) -/
def scan_aadhaar_duplicates (s : Store) : List DupGroup :=
  mkGroups mkAadhaarGroup s (validKeys s).dedup

/-- `scan_pan_duplicates`: same shape over the pan store's "PAN Number". -/
def scan_pan_duplicates (s : Store) : List DupGroup :=
  mkGroups mkPanGroup s (validKeys s).dedup

/-- `generate_summary_statistics` (lines 399-418), applied to the report
data collected by `run_full_scan`. -/
structure SummaryStats where
  total_aadhaar_duplicate_groups : Nat
  total_pan_duplicate_groups : Nat
  total_aadhaar_duplicate_records : Nat
  total_pan_duplicate_records : Nat
  data_quality_issues : Nat
  databases_scanned : Nat
  severity : String
deriving DecidableEq, Repr

def generate_summary_statistics (aadhaar_dups pan_dups : List DupGroup)
    (quality_issues databases_scanned : Nat) : SummaryStats :=
  let a := aadhaar_dups.length
  let p := pan_dups.length
  { total_aadhaar_duplicate_groups := a
    total_pan_duplicate_groups := p
    total_aadhaar_duplicate_records := (aadhaar_dups.map (·.duplicate_count)).sum
    total_pan_duplicate_records := (pan_dups.map (·.duplicate_count)).sum
    data_quality_issues := quality_issues
    databases_scanned := databases_scanned
    severity :=
      if 10 < a ∨ 10 < p then "HIGH"
      else if 5 < a ∨ 5 < p then "MEDIUM"
      else "LOW" }

/-- The two-record example store of the spec: both records carry identifier
`"A1"`, name `"X"`, dob `"1/1/2000"`. -/
def exampleStore : Store :=
  { docs := [⟨1, "a.pdf", some 90, none, 1⟩, ⟨2, "b.pdf", some 80, none, 2⟩],
    fields :=
      [⟨1, 1, some "X", some "1/1/2000", none, none, none, some "A1", none⟩,
       ⟨2, 2, some "X", some "1/1/2000", none, none, none, some "A1", none⟩] }

/-- A store where two records agree on the normalized Aadhaar number but
differ in the raw stored value. -/
def mixedStore : Store :=
  { docs := [⟨1, "a.pdf", some 90, none, 1⟩, ⟨2, "b.pdf", some 80, none, 2⟩],
    fields :=
      [⟨1, 1, some "X", some "1/1/2000", none, none, none,
        some "1234 5678 9012", none⟩,
       ⟨2, 2, some "X", some "1/1/2000", none, none, none,
        some "123456789012", none⟩] }

/-- The collected-name function of the aadhaar analysis. -/
def nameKey (r : ScanRecord) : Option String :=
  (truthy r.name).map fun n => upper (strip n)

/-! ## DataCleanupMigrator: duplicate analysis
(`src/user_management/data_cleanup_migrator.py`, lines 82-121) -/

/-- Python sort key `(x['extraction_confidence'] or 0, x['created_at'])`. -/
def confKey (r : ScanRecord) : Nat × Nat :=
  (r.extraction_confidence.getD 0, r.created_at)

/-- Strict lexicographic comparison of sort keys (Python tuple `<`). -/
def keyLtB (x y : Nat × Nat) : Bool :=
  x.1 < y.1 || (x.1 = y.1 && x.2 < y.2)

/-- Non-strict lexicographic order: `y` wins on confidence, or ties on
confidence and wins on recency. -/
def keyLe (x y : Nat × Nat) : Prop :=
  x.1 < y.1 ∨ (x.1 = y.1 ∧ x.2 ≤ y.2)

/-- `sorted(records, key=..., reverse=True)` as a stable insertion sort:
the inserted element goes in front of the first element it is not
strictly below, which preserves the original order of equal keys exactly
like Python's stable sort with `reverse=True`. -/
def insertDesc (r : ScanRecord) : List ScanRecord → List ScanRecord
  | [] => [r]
  | x :: xs =>
    if keyLtB (confKey r) (confKey x) then x :: insertDesc r xs
    else r :: x :: xs

def sortedDescByKey : List ScanRecord → List ScanRecord
  | [] => []
  | x :: xs => insertDesc x (sortedDescByKey xs)

/-- Python `max(records, key=lambda x: x['extraction_confidence'] or 0)`
(first maximal element; `None` on an empty list, where Python raises). -/
def maxByConf : List ScanRecord → Option ScanRecord
  | [] => none
  | r :: rs => some (rs.foldl (fun b x =>
      if b.extraction_confidence.getD 0 < x.extraction_confidence.getD 0
      then x else b) r)

inductive GroupDecision where
  | auto (keep : ScanRecord) (remove : List ScanRecord)
  | variation (keep : ScanRecord) (remove : List ScanRecord)
  | manual
deriving DecidableEq, Repr

/-- One iteration of the loop body of `analyze_duplicates_for_cleanup`:
the two `same_name ∧ same_dob` branches keep `sorted(...)[0]` and remove the
rest, the `len(unique_names) == 1` branch keeps the max-confidence record,
anything else goes to manual review.  Python raises (`IndexError` /
`ValueError`) on an empty `records` list in the first three branches; that
is modelled as `none`. -/
def classifyGroup (g : DupGroup) : Option GroupDecision :=
  if g.records.length = 2 ∧ g.analysis.same_name ∧ g.analysis.same_dob then
    match sortedDescByKey g.records with
    | k :: rest => some (.auto k rest)
    | [] => none
  else if g.analysis.same_name ∧ g.analysis.same_dob then
    match sortedDescByKey g.records with
    | k :: rest => some (.auto k rest)
    | [] => none
  else if g.analysis.unique_names.length = 1 then
    match maxByConf g.records with
    | some best => some (.variation best (g.records.filter fun r => r ≠ best))
    | none => none
  else some .manual

structure CleanupPlan where
  total_groups : Nat
  records_to_keep : List ScanRecord
  records_to_remove : List ScanRecord
  merge_candidates : List DupGroup
  manual_review_needed : List DupGroup
deriving DecidableEq, Repr

def planGroups : List DupGroup →
    Option (List ScanRecord × List ScanRecord × List DupGroup)
  | [] => some ([], [], [])
  | g :: t => do
    let d ← classifyGroup g
    let (ks, rs, ms) ← planGroups t
    match d with
    | .auto k rem => some (k :: ks, rem ++ rs, ms)
    | .variation k rem => some (k :: ks, rem ++ rs, ms)
    | .manual => some (ks, rs, g :: ms)

/-- `analyze_duplicates_for_cleanup`: the accumulated cleanup plan
(`merge_candidates` is initialized and never filled by the code). -/
def analyze_duplicates_for_cleanup (dups : List DupGroup) :
    Option CleanupPlan :=
  (planGroups dups).map fun x =>
    { total_groups := dups.length, records_to_keep := x.1,
      records_to_remove := x.2.1, merge_candidates := [],
      manual_review_needed := x.2.2 }

/-- A store whose two duplicate records carry differing names. -/
def differStore : Store :=
  { docs := [⟨1, "a.pdf", some 90, none, 1⟩, ⟨2, "b.pdf", some 80, none, 2⟩],
    fields :=
      [⟨1, 1, some "X", some "1/1/2000", none, none, none, some "B1", none⟩,
       ⟨2, 2, some "Y", some "1/1/2000", none, none, none, some "B1", none⟩] }

/-! ## DatabaseSchemaManager
(`src/user_management/database_schema_manager.py`)

Schema state of one database file: the values of the constrained column of
`extracted_fields`, the names of the existing indexes, flags for the
identity tables/columns, and the number of backups taken.  Only failures of
the embedded logic itself are modelled; environmental failures (file copy,
disk) do not occur in the model of `migrate_aadhaar_database`. -/

structure SchemaDb where
  columnValues : List (Option String)
  indexes : List String
  usersTable : Bool
  userDocsTable : Bool
  userIdColumns : Bool
  backups : Nat
deriving DecidableEq, Repr

/-- `f"idx_{fields_table}_{unique_field.replace(' ', '_').replace(chr(39), '').lower()}_unique"`. -/
def indexName (fieldsTable uniqueField : String) : String :=
  "idx_" ++ fieldsTable ++ "_" ++
    (⟨uniqueField.data.filterMap fun c =>
      if c = ' ' then some '_'
      else if c = Char.ofNat 39 then none
      else some c.toLower⟩ : String) ++ "_unique"

/-- `add_unique_constraints`: skip when the index already exists; otherwise
`CREATE UNIQUE INDEX`, which SQLite refuses (raising, caught by the
`except` that logs "Failed to add unique constraints" and returns `False`)
exactly when two rows hold the same non-NULL value in the column.  The
function never removes rows. -/
def add_unique_constraints (db : SchemaDb) (fieldsTable uniqueField : String) :
    Bool × SchemaDb :=
  let idx := indexName fieldsTable uniqueField
  if idx ∈ db.indexes then (true, db)
  else if ¬ (db.columnValues.filterMap id).Nodup then (false, db)
  else (true, { db with indexes := db.indexes ++ [idx] })

/-- The warning `migrate_aadhaar_database` logs when
`add_unique_constraints` returns `False`. -/
def constraintWarning : String :=
  "Failed to add unique constraint - may already exist or have duplicates"

/-- `migrate_aadhaar_database` (lines 276-314): backup, create identity
tables, add `user_id` columns, attempt the unique constraint — a `False`
from `add_unique_constraints` is only logged as a warning — enable foreign
keys, verify, and report success.  Returns
`(success, migrated db, logged warnings)`. -/
def migrate_aadhaar_database (db : SchemaDb) : Bool × SchemaDb × List String :=
  let db1 := { db with backups := db.backups + 1 }
  let db2 := { db1 with usersTable := true, userDocsTable := true }
  let db3 := { db2 with userIdColumns := true }
  let r := add_unique_constraints db3 "extracted_fields" "Aadhaar Number"
  let warnings := if r.1 then [] else [constraintWarning]
  (true, r.2, warnings)

/-- A database whose constrained column holds the same value twice and has
no indexes. -/
def dupDb : SchemaDb :=
  { columnValues := [some "123456789012", some "123456789012"],
    indexes := [], usersTable := false, userDocsTable := false,
    userIdColumns := false, backups := 0 }

/-! ## AadhaarExtractionTool ingestion boundary
(`src/aadhaar_extractor_with_sql.py`, `store_in_database`, lines 345-460,
with `DuplicatePreventionService.check_aadhaar_exists` /
`validate_document_uniqueness` / `log_duplicate_attempt` from
`src/user_management/duplicate_prevention_service.py`). -/

/-- The dict returned by `check_aadhaar_exists` for a hit.  Its SELECT list
is `ef.id, ef.document_id, ef."Aadhaar Number", ef."Name", ad.file_path,
ad.created_at`; the constant entries `exists=True`, `database='aadhaar'`,
`table='extracted_fields'` are not modelled. -/
structure ExistingRecord where
  field_id : Nat
  document_id : Nat
  aadhaar_number : Option String
  name : Option String
  file_path : String
  created_at : Nat
deriving DecidableEq, Repr

/-- `existing_record.get('user_id')`: the snapshot dict built by
`check_aadhaar_exists` carries no `user_id` key, so `dict.get` yields
`None` for every record. -/
def ExistingRecord.get_user_id (_ : ExistingRecord) : Option Nat := none

/-- `SELECT ... FROM extracted_fields ef JOIN aadhaar_documents ad ON
ef.document_id = ad.id WHERE ef."Aadhaar Number" = ?` with `fetchone`. -/
def findExisting (norm : String) (docs : List DocRow) :
    List FieldRow → Option ExistingRecord
  | [] => none
  | f :: t =>
    if f.identifier = some norm then
      match findDoc f.document_id docs with
      | some d =>
        some { field_id := f.id, document_id := f.document_id,
               aadhaar_number := f.identifier, name := f.name,
               file_path := d.file_path, created_at := d.created_at }
      | none => findExisting norm docs t
    else findExisting norm docs t

/-- `check_aadhaar_exists`: `None` guard, then look up the **normalized**
number among the stored `"Aadhaar Number"` values. -/
def check_aadhaar_exists (s : Store) (a : String) : Option ExistingRecord :=
  if a = "" then none
  else findExisting (normalize_aadhaar a) s.docs s.fields

/-- `validate_document_uniqueness("AADHAAR", fields)`. -/
def validate_document_uniqueness_aadhaar (s : Store)
    (aadhaar : Option String) : Bool × Option ExistingRecord :=
  match truthy aadhaar with
  | some a =>
    match check_aadhaar_exists s a with
    | some ex => (false, some ex)
    | none => (true, none)
  | none => (true, none)

/-- The fields of the `DuplicateAadhaarError` raised on a duplicate. -/
structure DuplicateAadhaarErrorData where
  aadhaar_number : String
  existing_user_id : Option Nat
  existing_document_id : Option Nat
  existing_record : ExistingRecord
deriving DecidableEq, Repr

/-- The extraction collaborator's field dictionary. -/
structure ExtractedData where
  name : Option String
  dob : Option String
  gender : Option String
  address : Option String
  aadhaar_number : Option String
deriving DecidableEq, Repr

structure ExtractionResult where
  status : String
  file_path : String
  document_type : String
  extraction_confidence : Option Nat
  extracted_data : ExtractedData
deriving DecidableEq, Repr

/-- The audit entry logged by `log_duplicate_attempt` (the timestamp and the
constant `document_type` context are carried alongside). -/
structure AuditEntry where
  document_type : String
  attempted_aadhaar : String
  attempted_pan : String
  attempted_name : String
  attempted_file_path : String
  existing_document_id : Option Nat
  existing_file_path : Option String
  existing_created_at : Option Nat
deriving DecidableEq, Repr

/-- `log_duplicate_attempt("AADHAAR", extracted_data, existing_record)`:
`attempted_data.get(..., '')` defaults absent keys to the empty string; the
aadhaar field dictionary has no `'PAN Number'` and no `'file_path'` key. -/
def mkDupAudit (d : ExtractedData) (ex : ExistingRecord) : AuditEntry :=
  { document_type := "AADHAAR"
    attempted_aadhaar := d.aadhaar_number.getD ""
    attempted_pan := ""
    attempted_name := d.name.getD ""
    attempted_file_path := ""
    existing_document_id := some ex.document_id
    existing_file_path := some ex.file_path
    existing_created_at := some ex.created_at }

/-- State of an `AadhaarExtractionTool`: its database file (documents,
fields, `user_documents`) together with its `UserIDManager` (whose aadhaar
`users` table lives in the same file) and the audit log; `nextDocId` /
`nextFieldId` model the `AUTOINCREMENT` columns. -/
structure ExtractorState where
  store : Store
  userDocs : List (Nat × Nat)
  mgr : ManagerState
  audit : List AuditEntry
  nextDocId : Nat
  nextFieldId : Nat
deriving DecidableEq, Repr

/-- The structured value returned by `store_in_database` (a success dict or
`create_error_response` of the raised exception). -/
inductive StoreOutcome where
  | success (document_id user_id : Nat)
  | duplicate (e : DuplicateAadhaarErrorData)
  | invalidData (missing_fields : List String)
  | failedExtraction
  | storageError
deriving DecidableEq, Repr

/-- `existing_user_id` of a duplicate rejection, if the outcome is one. -/
def StoreOutcome.dupUserId : StoreOutcome → Option (Option Nat)
  | .duplicate e => some e.existing_user_id
  | _ => none

/-- `store_in_database`: refuse non-success extractions, validate the
required fields, run the duplicate check (reject + audit on a hit), then
resolve the user id and insert the document row, the fields row (with the
**raw** extracted values) and the `user_documents` cross-reference.
`now` models `CURRENT_TIMESTAMP` for the inserted document row. -/
def store_in_database (st : ExtractorState) (x : ExtractionResult)
    (now : Nat) : StoreOutcome × ExtractorState :=
  if x.status ≠ "success" then (.failedExtraction, st)
  else
    match truthy x.extracted_data.aadhaar_number, truthy x.extracted_data.name with
    | none, _ =>
      (.invalidData ((if (truthy x.extracted_data.aadhaar_number).isNone
          then ["Aadhaar Number"] else []) ++
        (if (truthy x.extracted_data.name).isNone then ["Name"] else [])), st)
    | some _, none =>
      (.invalidData ((if (truthy x.extracted_data.aadhaar_number).isNone
          then ["Aadhaar Number"] else []) ++
        (if (truthy x.extracted_data.name).isNone then ["Name"] else [])), st)
    | some a, some nm =>
      match validate_document_uniqueness_aadhaar st.store
          x.extracted_data.aadhaar_number with
      | (false, some ex) =>
        -- log_duplicate_attempt, then raise DuplicateAadhaarError,
        -- answered by create_error_response
        (.duplicate
          { aadhaar_number := a
            existing_user_id := ex.get_user_id
            existing_document_id := some ex.document_id
            existing_record := ex },
         { st with audit := st.audit ++ [mkDupAudit x.extracted_data ex] })
      | _ =>
        match get_or_create_user_id st.mgr a nm (some .aadhaar) with
        | (.error _, mgr') => (.storageError, { st with mgr := mgr' })
        | (.ok uid, mgr') =>
          let docId := st.nextDocId
          let doc : DocRow :=
            { id := docId, file_path := x.file_path,
              extraction_confidence := x.extraction_confidence,
              user_id := some uid, created_at := now }
          let fieldRow : FieldRow :=
            { id := st.nextFieldId, document_id := docId,
              name := x.extracted_data.name, dob := x.extracted_data.dob,
              gender := x.extracted_data.gender, fathers_name := none,
              address := x.extracted_data.address,
              identifier := x.extracted_data.aadhaar_number,
              user_id := some uid }
          (.success docId uid,
           { store := { docs := st.store.docs ++ [doc],
                        fields := st.store.fields ++ [fieldRow] },
             userDocs := if (uid, docId) ∈ st.userDocs then st.userDocs
                         else st.userDocs ++ [(uid, docId)],
             mgr := mgr', audit := st.audit,
             nextDocId := st.nextDocId + 1,
             nextFieldId := st.nextFieldId + 1 })

/-- The ingestion input of the spec scenario (first attempt). -/
def ingest1 : ExtractionResult :=
  { status := "success", file_path := "a.pdf", document_type := "AADHAAR",
    extraction_confidence := some 90,
    extracted_data :=
      { name := some "John Doe", dob := some "1/1/2000",
        gender := some "Male", address := some "42 X Road",
        aadhaar_number := some "123456789012" } }

/-- A second ingestion of the same Aadhaar number under another name. -/
def ingest2 : ExtractionResult :=
  { status := "success", file_path := "b.pdf", document_type := "AADHAAR",
    extraction_confidence := some 80,
    extracted_data :=
      { name := some "Jane Roe", dob := some "2/2/2001",
        gender := some "Female", address := some "7 Y Lane",
        aadhaar_number := some "123456789012" } }

def freshExtractor : ExtractorState :=
  { store := { docs := [], fields := [] }, userDocs := [],
    mgr := freshManager 0, audit := [], nextDocId := 1, nextFieldId := 1 }

/-! ## DataCleanupMigrator: cleanup and the full pipeline
(`src/user_management/data_cleanup_migrator.py`)

The migrator owns the two document stores and a `UserIDManager`.  The only
steps that can raise are backup creation (`shutil.copy2`) and the schema
migration (both fail only on environmental errors); these external outcomes
are the `MigEnv` oracle.  The schema step's table/column/index effects live
in the separate schema model above and are not observed by the pipeline
claims, so the pipeline tracks only the document stores and the manager. -/

structure MigEnv where
  backupOk : Bool
  schemaOk : Bool
deriving DecidableEq, Repr

structure PipeState where
  aadhaarStore : Store
  panStore : Store
  mgr : ManagerState
deriving DecidableEq, Repr

/-- `remove_duplicate_record` (lines 123-149): delete the fields row; if it
was the document's last fields row, delete the document row too. -/
def remove_duplicate_record (s : Store) (field_id document_id : Nat) : Store :=
  let fields' := s.fields.filter fun f => f.id ≠ field_id
  if (fields'.filter fun f => f.document_id = document_id).length = 0 then
    { docs := s.docs.filter fun d => d.id ≠ document_id, fields := fields' }
  else { s with fields := fields' }

inductive CleanupResult where
  | done (removed_count kept_count : Nat) (manual : List DupGroup)
  | dryRun (would_remove would_keep : Nat)
deriving DecidableEq, Repr

/-- Common body of `cleanup_aadhaar_duplicates` / `cleanup_pan_duplicates`
(lines 151-249, which differ only in the scanner and table names): scan,
return early when there is nothing to do, build the cleanup plan (a Python
`IndexError` inside the planner propagates: `none`), stop after the plan on
a dry run, otherwise remove every planned record.  In the model every
removal succeeds, as in the code absent database errors. -/
def cleanup_duplicates (scan : Store → List DupGroup) (s : Store)
    (dry_run : Bool) : Option (CleanupResult × Store) :=
  let dups := scan s
  if dups.isEmpty then some (.done 0 0 [], s)
  else
    match analyze_duplicates_for_cleanup dups with
    | none => none
    | some plan =>
      if dry_run then
        some (.dryRun plan.records_to_remove.length
          plan.records_to_keep.length, s)
      else
        let s' := plan.records_to_remove.foldl
          (fun acc r => remove_duplicate_record acc r.field_id r.document_id) s
        some (.done plan.records_to_remove.length
          plan.records_to_keep.length plan.manual_review_needed, s')

def cleanup_aadhaar_duplicates (s : Store) (dry_run : Bool) :
    Option (CleanupResult × Store) :=
  cleanup_duplicates scan_aadhaar_duplicates s dry_run

def cleanup_pan_duplicates (s : Store) (dry_run : Bool) :
    Option (CleanupResult × Store) :=
  cleanup_duplicates scan_pan_duplicates s dry_run

/-- `SELECT DISTINCT ef."<identifier>", ef."Name" ... WHERE` both non-NULL
and non-empty. -/
def distinctIdentNamePairs (s : Store) : List (String × String) :=
  (s.fields.filterMap fun f =>
    match f.identifier, f.name with
    | some a, some n => if a ≠ "" ∧ n ≠ "" then some (a, n) else none
    | _, _ => none).dedup

def setDocUserIds (docs : List DocRow) (ids : List Nat) (uid : Nat) :
    List DocRow :=
  docs.map fun d => if d.id ∈ ids then { d with user_id := some uid } else d

def setFieldUserIds (fields : List FieldRow) (v : String) (uid : Nat) :
    List FieldRow :=
  fields.map fun f =>
    if f.identifier = some v then { f with user_id := some uid } else f

/-- The aadhaar half of `migrate_existing_data_to_user_system`
(lines 263-317): per distinct pair, resolve a user id and stamp it on the
matching document and fields rows; a per-record failure is logged and the
loop continues. -/
def migrateAadhaarRecords :
    List (String × String) → Store → ManagerState → Store × ManagerState
  | [], s, m => (s, m)
  | (a, n) :: t, s, m =>
    match get_or_create_user_id m a n (some .aadhaar) with
    | (.ok uid, m') =>
      let docIds := s.fields.filterMap fun f =>
        if f.identifier = some a then some f.document_id else none
      migrateAadhaarRecords t
        { docs := setDocUserIds s.docs docIds uid,
          fields := setFieldUserIds s.fields a uid } m'
    | (.error _, m') => migrateAadhaarRecords t s m'

/-- The pan half (lines 319-378): a fresh user id per distinct pair,
`INSERT OR IGNORE` into the pan `users` table with an empty aadhaar number
(ignored when an empty-aadhaar row already violates the unique constraint),
then stamp the documents and fields. -/
def migratePanRecords :
    List (String × String) → Store → ManagerState → Store × ManagerState
  | [], s, m => (s, m)
  | (p, n) :: t, s, m =>
    let uid := m.nextId
    let m1 : ManagerState := { m with nextId := m.nextId + 1 }
    let m2 : ManagerState :=
      if (findByAadhaar "" m1.panUsers).isSome then m1
      else { m1 with panUsers := m1.panUsers ++ [⟨uid, "", n, 1⟩] }
    let docIds := s.fields.filterMap fun f =>
      if f.identifier = some p then some f.document_id else none
    migratePanRecords t
      { docs := setDocUserIds s.docs docIds uid,
        fields := setFieldUserIds s.fields p uid } m2

def migrate_existing_data_to_user_system (st : PipeState) : PipeState :=
  let r1 := migrateAadhaarRecords (distinctIdentNamePairs st.aadhaarStore)
    st.aadhaarStore st.mgr
  let r2 := migratePanRecords (distinctIdentNamePairs st.panStore)
    st.panStore r1.2
  { aadhaarStore := r1.1, panStore := r2.1, mgr := r2.2 }

structure IntegrityResults where
  aadhaar_duplicates_remaining : Nat
  pan_duplicates_remaining : Nat
  issues : List String
deriving DecidableEq, Repr

/-- The user-id coverage check flags a store whenever fewer than 100% of its
fields rows carry a `user_id` — including the empty store, whose computed
coverage is 0. -/
def coverageIssue (s : Store) : Bool :=
  s.fields.length = 0 ∨
    (s.fields.filter fun f => f.user_id.isSome).length < s.fields.length

/-- `verify_migration_integrity` (lines 432-499): re-scan both stores and
run the coverage check; read-only.  The issue strings stand for the
formatted messages of the code. -/
def verify_migration_integrity (st : PipeState) : IntegrityResults :=
  let ra := (scan_aadhaar_duplicates st.aadhaarStore).length
  let rp := (scan_pan_duplicates st.panStore).length
  { aadhaar_duplicates_remaining := ra
    pan_duplicates_remaining := rp
    issues :=
      (if 0 < ra then ["remaining Aadhaar duplicate groups"] else []) ++
      (if 0 < rp then ["remaining PAN duplicate groups"] else []) ++
      (if coverageIssue st.aadhaarStore
        then ["aadhaar records without user_id"] else []) ++
      (if coverageIssue st.panStore
        then ["pan records without user_id"] else []) }

structure MigrationResults where
  dry_run : Bool
  steps_completed : List String
  steps_failed : List String
  backups_created : Nat
  aadhaar_cleanup : Option CleanupResult
  pan_cleanup : Option CleanupResult
  integrity : Option IntegrityResults
  final_status : String
deriving DecidableEq, Repr

/-- `run_complete_migration` (lines 501-581).  Steps 1/2/4/5 are skipped on
a dry run; a failing backup or schema step raises `MigrationError`, caught
by the surrounding handler which sets `final_status = 'failed'` (step 2
appends to `steps_failed` before raising); a planner crash inside step 3
propagates the same way.  Step 5 (`apply_database_constraints`) catches all
its errors and cannot affect control flow or the stores, so only its
completion is recorded.  On the non-raising path `steps_failed` stays empty
and the status is decided by the integrity issues. -/
def run_complete_migration (env : MigEnv) (st : PipeState)
    (dry_run : Bool) : MigrationResults × PipeState :=
  if ¬ dry_run ∧ ¬ env.backupOk then
    ({ dry_run := dry_run, steps_completed := [], steps_failed := [],
       backups_created := 0, aadhaar_cleanup := none, pan_cleanup := none,
       integrity := none, final_status := "failed" }, st)
  else
    let backups := if dry_run then 0 else 2
    let steps1 : List String := if dry_run then [] else ["create_backups"]
    if ¬ dry_run ∧ ¬ env.schemaOk then
      ({ dry_run := dry_run, steps_completed := steps1,
         steps_failed := ["schema_updates"], backups_created := backups,
         aadhaar_cleanup := none, pan_cleanup := none, integrity := none,
         final_status := "failed" }, st)
    else
      let steps2 := steps1 ++ (if dry_run then [] else ["schema_updates"])
      match cleanup_aadhaar_duplicates st.aadhaarStore dry_run with
      | none =>
        ({ dry_run := dry_run, steps_completed := steps2, steps_failed := [],
           backups_created := backups, aadhaar_cleanup := none,
           pan_cleanup := none, integrity := none,
           final_status := "failed" }, st)
      | some ra =>
        match cleanup_pan_duplicates st.panStore dry_run with
        | none =>
          ({ dry_run := dry_run, steps_completed := steps2,
             steps_failed := [], backups_created := backups,
             aadhaar_cleanup := some ra.1, pan_cleanup := none,
             integrity := none, final_status := "failed" },
           { st with aadhaarStore := ra.2 })
        | some rp =>
          let st3 : PipeState := { st with aadhaarStore := ra.2,
                                           panStore := rp.2 }
          let steps3 := steps2 ++ ["cleanup_duplicates"]
          let st4 := if dry_run then st3
                     else migrate_existing_data_to_user_system st3
          let steps4 := steps3 ++ (if dry_run then [] else ["user_migration"])
          let steps5 := steps4 ++
            (if dry_run then [] else ["apply_constraints"])
          let ir := verify_migration_integrity st4
          let steps6 := steps5 ++ ["verify_integrity"]
          ({ dry_run := dry_run, steps_completed := steps6,
             steps_failed := [], backups_created := backups,
             aadhaar_cleanup := some ra.1, pan_cleanup := some rp.1,
             integrity := some ir,
             final_status := if ir.issues.isEmpty
               then "completed_successfully"
               else "completed_with_warnings" }, st4)

/-- An example pipeline state: the duplicate-carrying example store on the
aadhaar side, an empty pan store, a fresh manager. -/
def examplePipe : PipeState :=
  { aadhaarStore := exampleStore, panStore := { docs := [], fields := [] },
    mgr := freshManager 0 }

theorem uint32_le_toNat {a b : UInt32} (h : a ≤ b) : a.toNat ≤ b.toNat :=
  BitVec.le_def.mp (UInt32.le_def.mp h)

theorem toUpper_eq_self {c : Char} (h : ¬ (97 ≤ c.toNat ∧ c.toNat ≤ 122)) :
    c.toUpper = c := by
  unfold Char.toUpper
  simp only [ge_iff_le]
  exact if_neg h

theorem isDigit_toNat {c : Char} (h : c.isDigit = true) :
    48 ≤ c.toNat ∧ c.toNat ≤ 57 := by
  simp only [Char.isDigit, ge_iff_le, Bool.and_eq_true, decide_eq_true_eq] at h
  exact ⟨uint32_le_toNat h.1, uint32_le_toNat h.2⟩

theorem toUpper_of_aadhaarChar {c : Char} (h : aadhaarChar c) : c.toUpper = c := by
  simp only [aadhaarChar, Bool.or_eq_true, decide_eq_true_eq] at h
  rcases h with h | h
  · have := isDigit_toNat h
    exact toUpper_eq_self (by omega)
  · subst h; decide

theorem toUpper_of_panChar {c : Char} (h : panChar c) : c.toUpper = c := by
  simp only [panChar, Bool.or_eq_true, Bool.and_eq_true, decide_eq_true_eq] at h
  rcases h with ⟨h1, h2⟩ | h
  · have h1 := uint32_le_toNat (show ('A' : Char).val ≤ c.val from h1)
    have h2 := uint32_le_toNat (show c.val ≤ ('Z' : Char).val from h2)
    have e1 : ('A' : Char).val.toNat = 65 := by decide
    have e2 : ('Z' : Char).val.toNat = 90 := by decide
    exact toUpper_eq_self (by
      simp only [Char.toNat]
      omega)
  · have := isDigit_toNat h
    exact toUpper_eq_self (by omega)

theorem filter_upper_fixed {p : Char → Bool}
    (hp : ∀ c, p c → c.toUpper = c) (l : List Char) :
    ((l.filter p).map Char.toUpper).filter p = l.filter p := by
  induction l with
  | nil => rfl
  | cons c cs ih =>
    by_cases h : p c
    · simp [List.filter_cons, h, hp c h, ih]
    · simp [List.filter_cons, h, ih]

/-- Claim C8 — `normalize_aadhaar` and `normalize_pan` are pure, deterministic
(Lean functions), and idempotent: `normalize (normalize x) = normalize x` for
every string `x`; moreover `normalize_aadhaar "1234 5678 9012" = "123456789012"`
and `normalize_pan "abcde-1234-f" = "ABCDE1234F"`. -/
theorem normalize_idempotent (x : String) :
    normalize_aadhaar (normalize_aadhaar x) = normalize_aadhaar x ∧
    normalize_pan (normalize_pan x) = normalize_pan x ∧
    normalize_aadhaar "1234 5678 9012" = "123456789012" ∧
    normalize_pan "abcde-1234-f" = "ABCDE1234F" := by
  refine ⟨?_, ?_, by decide, by decide⟩
  · show String.mk _ = String.mk _
    exact congrArg String.mk
      (filter_upper_fixed (fun c h => toUpper_of_aadhaarChar h)
        (x.data.map Char.toUpper))
  · show String.mk _ = String.mk _
    exact congrArg String.mk
      (filter_upper_fixed (fun c h => toUpper_of_panChar h)
        (x.data.map Char.toUpper))

/-- Claim C1 — from a fresh store, `get_or_create_user_id(identifier, name)`
with non-empty identifier and name succeeds twice with the same user id, and
that user's `document_count` is 1 after the first call and 2 after the
second. -/
theorem get_or_create_twice (n : Nat) (a name : String)
    (ha : a ≠ "") (hn : name ≠ "") :
    ∃ uid st1 st2,
      get_or_create_user_id (freshManager n) a name none = (.ok uid, st1) ∧
      docCountOf st1 uid = some 1 ∧
      get_or_create_user_id st1 a name none = (.ok uid, st2) ∧
      docCountOf st2 uid = some 2 := by
  have hor : ¬ (a = "" ∨ name = "") := by simp [ha, hn]
  by_cases hz : normalize_aadhaar a = ""
  · refine ⟨n,
      { aadhaarUsers := [⟨n, normalize_aadhaar a, strip name, 1⟩],
        panUsers := [],
        cache := [(normalize_aadhaar a, ⟨n, normalize_aadhaar a, strip name, 1, .aadhaar⟩)],
        nextId := n + 1 },
      { aadhaarUsers := [⟨n, normalize_aadhaar a, strip name, 2⟩],
        panUsers := [],
        cache := [(normalize_aadhaar a, ⟨n, normalize_aadhaar a, strip name, 1, .aadhaar⟩)],
        nextId := n + 1 }, ?_, ?_, ?_, ?_⟩
    · simp [get_or_create_user_id, get_user_by_aadhaar, freshManager, cacheFind,
        findByAadhaar, create_user, ManagerState.usersIn, ManagerState.setUsers,
        cachePut, UserRow.toCached, ha, hn, hz]
    · simp [docCountOf, get_user_by_id, findById, UserRow.toCached]
    · simp [get_or_create_user_id, get_user_by_aadhaar, cacheFind,
        update_user_document_count, get_user_by_id, findById,
        ManagerState.usersIn, ManagerState.setUsers, UserRow.toCached,
        ha, hn, hz]
    · simp [docCountOf, get_user_by_id, findById, UserRow.toCached]
  · refine ⟨n,
      { aadhaarUsers := [⟨n, normalize_aadhaar a, strip name, 1⟩],
        panUsers := [],
        cache := [(normalize_aadhaar a, ⟨n, normalize_aadhaar a, strip name, 1, .aadhaar⟩)],
        nextId := n + 1 },
      { aadhaarUsers := [⟨n, normalize_aadhaar a, strip name, 2⟩],
        panUsers := [],
        cache := [],
        nextId := n + 1 }, ?_, ?_, ?_, ?_⟩
    · simp [get_or_create_user_id, get_user_by_aadhaar, freshManager, cacheFind,
        findByAadhaar, create_user, ManagerState.usersIn, ManagerState.setUsers,
        cachePut, UserRow.toCached, ha, hn, hz]
    · simp [docCountOf, get_user_by_id, findById, UserRow.toCached]
    · simp [get_or_create_user_id, get_user_by_aadhaar, cacheFind,
        update_user_document_count, get_user_by_id, findById,
        ManagerState.usersIn, ManagerState.setUsers, UserRow.toCached,
        cacheDrop, ha, hn, hz]
    · simp [docCountOf, get_user_by_id, findById, UserRow.toCached]

/-- Witness for C1 at `identifier = "123456789012"`, `name = "John Doe"`. -/
theorem get_or_create_twice_witness :
    ∃ uid st1 st2,
      get_or_create_user_id (freshManager 0) "123456789012" "John Doe" none
        = (.ok uid, st1) ∧
      docCountOf st1 uid = some 1 ∧
      get_or_create_user_id st1 "123456789012" "John Doe" none
        = (.ok uid, st2) ∧
      docCountOf st2 uid = some 2 :=
  get_or_create_twice 0 "123456789012" "John Doe" (by decide) (by decide)

/-- Claim C9 — with an empty identifier or an empty name (`None` is absorbed
into the empty string in this model), both `get_or_create_user_id` and
`create_user` fail with the `ValueError` before touching any store: the
returned state is exactly the input state. -/
theorem empty_input_value_error (st : ManagerState) (a name : String)
    (db : Db) (pre : Option Db) (h : a = "" ∨ name = "") :
    get_or_create_user_id st a name pre = (.error .valueError, st) ∧
    create_user st a name db = (.error .valueError, st) := by
  constructor
  · simp [get_or_create_user_id, h]
  · simp [create_user, h]

/-- Witness for C9 at `identifier = ""`, `name = "John Doe"`, a non-trivial
store. -/
theorem empty_input_value_error_witness :
    get_or_create_user_id (freshManager 5) "" "John Doe" none
        = (.error .valueError, freshManager 5) ∧
    create_user (freshManager 5) "" "John Doe" .aadhaar
        = (.error .valueError, freshManager 5) :=
  empty_input_value_error (freshManager 5) "" "John Doe" .aadhaar none
    (Or.inl rfl)

theorem mem_setInsert {y x : String} {l : List String} :
    y ∈ setInsert x l ↔ y = x ∨ y ∈ l := by
  unfold setInsert
  by_cases h : x ∈ l
  · simp only [if_pos h]
    constructor
    · exact Or.inr
    · rintro (rfl | hy)
      · exact h
      · exact hy
  · simp [if_neg h, or_comm]

theorem nodup_setInsert {x : String} {l : List String} (h : l.Nodup) :
    (setInsert x l).Nodup := by
  unfold setInsert
  by_cases hx : x ∈ l
  · simpa [if_pos hx]
  · simpa [if_neg hx, List.nodup_append] using ⟨h, fun h' => hx h'⟩

theorem mem_collect_aux (f : ScanRecord → Option String) (recs : List ScanRecord)
    (acc : List String) (x : String) :
    x ∈ recs.foldl (fun acc r => match f r with
        | some v => setInsert v acc
        | none => acc) acc ↔ x ∈ acc ∨ ∃ r ∈ recs, f r = some x := by
  induction recs generalizing acc with
  | nil => simp
  | cons r t ih =>
    simp only [List.foldl_cons]
    cases hf : f r with
    | none =>
      rw [ih]
      simp only [List.mem_cons]
      constructor
      · rintro (h | ⟨r', hr', he⟩)
        · exact Or.inl h
        · exact Or.inr ⟨r', Or.inr hr', he⟩
      · rintro (h | ⟨r', hr', he⟩)
        · exact Or.inl h
        · rcases hr' with rfl | hr'
          · rw [hf] at he; cases he
          · exact Or.inr ⟨r', hr', he⟩
    | some v =>
      rw [ih]
      simp only [mem_setInsert, List.mem_cons]
      constructor
      · rintro (⟨rfl | h⟩ | ⟨r', hr', he⟩)
        · exact Or.inr ⟨r, Or.inl rfl, hf⟩
        · exact Or.inl h
        · exact Or.inr ⟨r', Or.inr hr', he⟩
      · rintro (h | ⟨r', hr', he⟩)
        · exact Or.inl (Or.inr h)
        · rcases hr' with rfl | hr'
          · rw [hf] at he
            exact Or.inl (Or.inl (by injection he with h'; rw [h']))
          · exact Or.inr ⟨r', hr', he⟩

theorem mem_collectSet (f : ScanRecord → Option String)
    (recs : List ScanRecord) (x : String) :
    x ∈ collectSet f recs ↔ ∃ r ∈ recs, f r = some x := by
  unfold collectSet
  rw [mem_collect_aux]
  simp

theorem nodup_collect_aux (f : ScanRecord → Option String)
    (recs : List ScanRecord) (acc : List String) (h : acc.Nodup) :
    (recs.foldl (fun acc r => match f r with
        | some v => setInsert v acc
        | none => acc) acc).Nodup := by
  induction recs generalizing acc with
  | nil => simpa
  | cons r t ih =>
    simp only [List.foldl_cons]
    cases hf : f r with
    | none => exact ih acc h
    | some v => exact ih _ (nodup_setInsert h)

theorem nodup_collectSet (f : ScanRecord → Option String)
    (recs : List ScanRecord) : (collectSet f recs).Nodup :=
  nodup_collect_aux f recs [] List.nodup_nil

theorem collectSet_le_one_iff (f : ScanRecord → Option String)
    (recs : List ScanRecord) :
    (collectSet f recs).length ≤ 1 ↔
      ∀ x ∈ collectSet f recs, ∀ y ∈ collectSet f recs, x = y := by
  constructor
  · intro h x hx y hy
    match hl : collectSet f recs with
    | [] => rw [hl] at hx; cases hx
    | [a] =>
      rw [hl] at hx hy
      simp only [List.mem_singleton] at hx hy
      rw [hx, hy]
    | a :: b :: t => rw [hl] at h; simp at h
  · intro h
    match hl : collectSet f recs with
    | [] => simp
    | [a] => simp
    | a :: b :: t =>
      exfalso
      have hnd := nodup_collectSet f recs
      rw [hl] at hnd h
      have hab : a = b := h a (by simp) b (by simp)
      rw [List.nodup_cons] at hnd
      exact hnd.1 (hab ▸ List.mem_cons_self b t)

theorem filter_mkGroups (mk : Store → String → DupGroup) (s : Store)
    (hmk : ∀ w, (mk s w).identifier = w) (v : String) :
    ∀ l : List String, l.Nodup →
      ((mkGroups mk s l).filter fun g => g.identifier = v).length
        = if v ∈ l ∧ 1 < countValid s v then 1 else 0 := by
  intro l
  induction l with
  | nil => intro _; simp [mkGroups]
  | cons w t ih =>
    intro hl
    rw [List.nodup_cons] at hl
    unfold mkGroups
    by_cases hc : 1 < countValid s w
    · rw [if_pos hc, List.filter_cons]
      by_cases hv : v = w
      · subst hv
        have hmem : ¬ (v ∈ t) := hl.1
        rw [if_pos (by simp [hmk]), List.length_cons, ih hl.2]
        simp [hmem, hc]
      · rw [if_neg (by simp [hmk]; exact fun hh => hv hh.symm), ih hl.2]
        simp [hv]
    · rw [if_neg hc, ih hl.2]
      by_cases hv : v = w
      · subst hv
        simp [hl.1, hc]
      · simp [hv]

theorem mem_mkGroups {mk : Store → String → DupGroup} {s : Store}
    {g : DupGroup} : ∀ {l : List String},
    g ∈ mkGroups mk s l → ∃ v ∈ l, g = mk s v := by
  intro l
  induction l with
  | nil => intro h; cases h
  | cons w t ih =>
    intro h
    unfold mkGroups at h
    by_cases hc : 1 < countValid s w
    · rw [if_pos hc, List.mem_cons] at h
      rcases h with rfl | h
      · exact ⟨w, List.mem_cons_self w t, rfl⟩
      · obtain ⟨v, hv, he⟩ := ih h
        exact ⟨v, List.mem_cons_of_mem w hv, he⟩
    · rw [if_neg hc] at h
      obtain ⟨v, hv, he⟩ := ih h
      exact ⟨v, List.mem_cons_of_mem w hv, he⟩

theorem same_name_characterization (recs : List ScanRecord) :
    ((analyzeAadhaar recs).same_name = true ↔
      ∀ r1 ∈ recs, ∀ r2 ∈ recs, ∀ n1 n2 : String,
        truthy r1.name = some n1 → truthy r2.name = some n2 →
        upper (strip n1) = upper (strip n2)) := by
  show (decide ((collectSet nameKey recs).length ≤ 1) = true ↔ _)
  rw [decide_eq_true_eq, collectSet_le_one_iff]
  constructor
  · intro h r1 h1 r2 h2 n1 n2 hn1 hn2
    exact h _ ((mem_collectSet nameKey recs _).mpr
        ⟨r1, h1, by simp [nameKey, hn1]⟩)
      _ ((mem_collectSet nameKey recs _).mpr ⟨r2, h2, by simp [nameKey, hn2]⟩)
  · intro h x hx y hy
    obtain ⟨r1, h1, he1⟩ := (mem_collectSet nameKey recs x).mp hx
    obtain ⟨r2, h2, he2⟩ := (mem_collectSet nameKey recs y).mp hy
    simp only [nameKey, Option.map_eq_some'] at he1 he2
    obtain ⟨n1, hn1, rfl⟩ := he1
    obtain ⟨n2, hn2, rfl⟩ := he2
    exact h r1 h1 r2 h2 n1 n2 hn1 hn2

/-- Claim C3 (amended) — the scanner groups by the **raw stored** identifier
value: for every store and value `v` there is exactly one duplicate group
with identifier `v` when `v` occurs (valid and verbatim) on more than one
`extracted_fields` row, and none otherwise; `same_name` is case-insensitive
trimmed equality of the truthy member names; on the spec's two-record
example store the scan yields exactly one group of size 2 with
`same_name = true` and `same_dob = true`. -/
theorem scan_groups_by_raw_identifier (s : Store) (v : String) :
    (((scan_aadhaar_duplicates s).filter fun g => g.identifier = v).length
      = if 1 < countValid s v then 1 else 0) ∧
    (∀ g ∈ scan_aadhaar_duplicates s,
      (g.analysis.same_name = true ↔
        ∀ r1 ∈ g.records, ∀ r2 ∈ g.records, ∀ n1 n2 : String,
          truthy r1.name = some n1 → truthy r2.name = some n2 →
          upper (strip n1) = upper (strip n2))) ∧
    (scan_aadhaar_duplicates exampleStore).length = 1 ∧
    (∀ g ∈ scan_aadhaar_duplicates exampleStore,
      g.records.length = 2 ∧ g.analysis.same_name = true ∧
      g.analysis.same_dob = true) := by
  refine ⟨?_, ?_, by decide, by decide⟩
  · show ((mkGroups mkAadhaarGroup s (validKeys s).dedup).filter
      fun g => g.identifier = v).length = _
    rw [filter_mkGroups mkAadhaarGroup s (fun w => rfl) v
      (validKeys s).dedup (validKeys s).nodup_dedup]
    by_cases hc : 1 < countValid s v
    · have hc' : 0 < (validKeys s).count v := by
        unfold countValid at hc
        omega
      have hv : v ∈ (validKeys s).dedup := by
        rw [List.mem_dedup]
        exact List.count_pos_iff.mp hc'
      simp [hv, hc]
    · simp [hc]
  · intro g hg
    obtain ⟨w, _, rfl⟩ := mem_mkGroups hg
    exact same_name_characterization (joinedRecords s w)

/-- Counterexample to C3 as stated: in `mixedStore` the normalized
identifier `"123456789012"` is shared by both (valid-identifier) records,
yet the scan returns no duplicate group at all — grouping is performed on
the raw stored value, not the normalized identifier. -/
theorem scan_not_by_normalized_identifier :
    scan_aadhaar_duplicates mixedStore = [] ∧
    mixedStore.fields.length = 2 ∧
    (∀ f ∈ mixedStore.fields, (validIdent f.identifier).isSome = true) ∧
    (∀ f ∈ mixedStore.fields,
      (f.identifier.map normalize_aadhaar) = some "123456789012") ∧
    mixedStore.fields.get? 0 ≠ mixedStore.fields.get? 1 := by
  refine ⟨by decide, by decide, by decide, by decide, by decide⟩

/-- Witness for C3 (amended) at the example store and value `"A1"`. -/
theorem scan_groups_by_raw_identifier_witness :
    (((scan_aadhaar_duplicates exampleStore).filter
        fun g => g.identifier = "A1").length
      = if 1 < countValid exampleStore "A1" then 1 else 0) ∧
    ((mkAadhaarGroup exampleStore "A1").records.length = 2 ∧
      (mkAadhaarGroup exampleStore "A1").analysis.same_name = true ∧
      (mkAadhaarGroup exampleStore "A1").analysis.same_dob = true) :=
  ⟨(scan_groups_by_raw_identifier exampleStore "A1").1,
   (scan_groups_by_raw_identifier exampleStore "A1").2.2.2
     (mkAadhaarGroup exampleStore "A1")
     (List.mem_cons_self (mkAadhaarGroup exampleStore "A1") [])⟩

theorem keyLe_refl (x : Nat × Nat) : keyLe x x := Or.inr ⟨rfl, le_refl _⟩

theorem keyLe_trans {x y z : Nat × Nat} (h1 : keyLe x y) (h2 : keyLe y z) :
    keyLe x z := by
  unfold keyLe at *
  omega

theorem keyLe_of_ltB {x y : Nat × Nat} (h : keyLtB x y = true) : keyLe x y := by
  unfold keyLtB at h
  unfold keyLe
  simp only [Bool.or_eq_true, Bool.and_eq_true, decide_eq_true_eq] at h
  omega

theorem keyLe_of_not_ltB {x y : Nat × Nat} (h : ¬ keyLtB x y = true) :
    keyLe y x := by
  unfold keyLtB at h
  unfold keyLe
  simp only [Bool.or_eq_true, Bool.and_eq_true, decide_eq_true_eq] at h
  omega

theorem insertDesc_perm (r : ScanRecord) (l : List ScanRecord) :
    (insertDesc r l).Perm (r :: l) := by
  induction l with
  | nil => exact List.Perm.refl _
  | cons x xs ih =>
    unfold insertDesc
    by_cases h : keyLtB (confKey r) (confKey x) = true
    · rw [if_pos h]
      exact ((ih.cons x).trans (List.Perm.swap r x xs)).symm.symm
    · rw [if_neg h]

theorem sortedDesc_perm (l : List ScanRecord) :
    (sortedDescByKey l).Perm l := by
  induction l with
  | nil => exact List.Perm.refl _
  | cons x xs ih =>
    exact (insertDesc_perm x (sortedDescByKey xs)).trans (ih.cons x)

theorem sortedDesc_head_max :
    ∀ (l : List ScanRecord) (k : ScanRecord) (rest : List ScanRecord),
      sortedDescByKey l = k :: rest →
      ∀ x ∈ l, keyLe (confKey x) (confKey k) := by
  intro l
  induction l with
  | nil => intro k rest h; cases h
  | cons a t ih =>
    intro k rest h
    cases hst : sortedDescByKey t with
    | nil =>
      have ht : t = [] := by
        have hp := sortedDesc_perm t
        rw [hst] at hp
        exact (hp.symm).eq_nil
      subst ht
      have h' : [a] = k :: rest := by
        rw [show sortedDescByKey [a] = [a] from rfl] at h
        exact h
      injection h' with h1 _
      subst h1
      intro x hx
      rcases List.mem_cons.mp hx with rfl | hx
      · exact keyLe_refl _
      · cases hx
    | cons b bs =>
      have ihb := ih b bs hst
      rw [show sortedDescByKey (a :: t) = insertDesc a (sortedDescByKey t)
        from rfl, hst] at h
      unfold insertDesc at h
      by_cases hab : keyLtB (confKey a) (confKey b) = true
      · rw [if_pos hab] at h
        injection h with h1 _
        subst h1
        intro x hx
        rcases List.mem_cons.mp hx with rfl | hx
        · exact keyLe_of_ltB hab
        · exact ihb x hx
      · rw [if_neg hab] at h
        injection h with h1 _
        subst h1
        intro x hx
        rcases List.mem_cons.mp hx with rfl | hx
        · exact keyLe_refl _
        · exact keyLe_trans (ihb x hx) (keyLe_of_not_ltB hab)

theorem manual_mem_plan {g : DupGroup} :
    ∀ {dups : List DupGroup}, g ∈ dups →
      classifyGroup g = some .manual →
      ∀ ks rs ms, planGroups dups = some (ks, rs, ms) → g ∈ ms := by
  intro dups
  induction dups with
  | nil => intro h; cases h
  | cons d t ih =>
    intro hg hcl ks rs ms hp
    unfold planGroups at hp
    cases hd : classifyGroup d with
    | none => rw [hd] at hp; cases hp
    | some dec =>
      rw [hd] at hp
      simp only [Option.bind_eq_bind, Option.some_bind] at hp
      cases hpt : planGroups t with
      | none => rw [hpt] at hp; cases hp
      | some x =>
        obtain ⟨ks1, rs1, ms1⟩ := x
        rw [hpt] at hp
        simp only [Option.some_bind] at hp
        rcases List.mem_cons.mp hg with rfl | hgt
        · rw [hcl] at hd
          injection hd with hd
          subst hd
          simp only [Option.some.injEq, Prod.mk.injEq] at hp
          obtain ⟨-, -, h3⟩ := hp
          subst h3
          exact List.mem_cons_self g ms1
        · cases dec with
          | auto k rem =>
            simp only [Option.some.injEq, Prod.mk.injEq] at hp
            obtain ⟨-, -, h3⟩ := hp
            subst h3
            exact ih hgt hcl ks1 rs1 ms1 hpt
          | variation k rem =>
            simp only [Option.some.injEq, Prod.mk.injEq] at hp
            obtain ⟨-, -, h3⟩ := hp
            subst h3
            exact ih hgt hcl ks1 rs1 ms1 hpt
          | manual =>
            simp only [Option.some.injEq, Prod.mk.injEq] at hp
            obtain ⟨-, -, h3⟩ := hp
            subst h3
            exact List.mem_cons_of_mem d (ih hgt hcl ks1 rs1 ms1 hpt)

/-- Claim C5 — for a scanned duplicate group whose analysis says all members
share name and date of birth, the cleanup plan keeps exactly one member —
one maximizing the confidence score with ties broken by the most recent
creation time — and removes the remaining `size - 1`; a group with two or
more distinct member names is classified for manual review, appears in the
plan's `manual_review_needed`, and contributes no kept and no removed
record.  (`hcoh` records the scanner invariant `same_name ↔ at most one
distinct name`, which every scanned group satisfies.) -/
theorem cleanup_keeps_best_and_flags_differing_names
    (dups : List DupGroup) (g : DupGroup) (hg : g ∈ dups)
    (hcoh : g.analysis.same_name = true → g.analysis.unique_names.length ≤ 1) :
    (g.analysis.same_name = true → g.analysis.same_dob = true →
      g.records ≠ [] →
      ∃ k rem, classifyGroup g = some (.auto k rem) ∧
        k ∈ g.records ∧ (k :: rem).Perm g.records ∧
        rem.length + 1 = g.records.length ∧
        (∀ r ∈ g.records, keyLe (confKey r) (confKey k)) ∧
        analyze_duplicates_for_cleanup [g] = some
          { total_groups := 1, records_to_keep := [k],
            records_to_remove := rem, merge_candidates := [],
            manual_review_needed := [] }) ∧
    (2 ≤ g.analysis.unique_names.length →
      classifyGroup g = some .manual ∧
      (∀ plan, analyze_duplicates_for_cleanup dups = some plan →
        g ∈ plan.manual_review_needed) ∧
      analyze_duplicates_for_cleanup [g] = some
        { total_groups := 1, records_to_keep := [],
          records_to_remove := [], merge_candidates := [],
          manual_review_needed := [g] }) := by
  constructor
  · intro hsn hsd hne
    have hnil : sortedDescByKey g.records ≠ [] := by
      intro hs
      exact hne ((sortedDesc_perm g.records).symm.trans (hs ▸ List.Perm.refl _)).eq_nil
    cases hs : sortedDescByKey g.records with
    | nil => exact absurd hs hnil
    | cons k rest =>
      have hperm : (k :: rest).Perm g.records := hs ▸ sortedDesc_perm g.records
      have hcl : classifyGroup g = some (.auto k rest) := by
        unfold classifyGroup
        by_cases hlen : g.records.length = 2
        · rw [if_pos ⟨hlen, hsn, hsd⟩, hs]
        · rw [if_neg (fun hh => hlen hh.1), if_pos ⟨hsn, hsd⟩, hs]
      refine ⟨k, rest, hcl, hperm.mem_iff.mp (List.mem_cons_self k rest),
        hperm, by simpa using hperm.length_eq,
        sortedDesc_head_max g.records k rest hs, ?_⟩
      unfold analyze_duplicates_for_cleanup planGroups
      rw [hcl]
      simp [planGroups]
  · intro hn
    have hsn : g.analysis.same_name = false := by
      cases hb : g.analysis.same_name with
      | false => rfl
      | true => have := hcoh hb; omega
    have hcl : classifyGroup g = some .manual := by
      unfold classifyGroup
      rw [if_neg (fun hh => by rw [hsn] at hh; exact absurd hh.2.1 (by simp)),
        if_neg (fun hh => by rw [hsn] at hh; exact absurd hh.1 (by simp)),
        if_neg (by omega)]
    refine ⟨hcl, ?_, ?_⟩
    · intro plan hplan
      unfold analyze_duplicates_for_cleanup at hplan
      cases hpg : planGroups dups with
      | none => rw [hpg] at hplan; cases hplan
      | some x =>
        obtain ⟨ks, rs, ms⟩ := x
        rw [hpg] at hplan
        injection hplan with hplan
        subst hplan
        exact manual_mem_plan hg hcl ks rs ms hpg
    · unfold analyze_duplicates_for_cleanup planGroups
      rw [hcl]
      simp [planGroups]

/-- Witness for C5: the example group (shared name and dob) is auto-resolved
with one kept and one removed record, and the differing-names group is sent
to manual review. -/
theorem cleanup_keeps_best_witness :
    (∃ k rem, classifyGroup (mkAadhaarGroup exampleStore "A1")
        = some (.auto k rem) ∧
      k ∈ (mkAadhaarGroup exampleStore "A1").records ∧
      (k :: rem).Perm (mkAadhaarGroup exampleStore "A1").records ∧
      rem.length + 1 = (mkAadhaarGroup exampleStore "A1").records.length ∧
      (∀ r ∈ (mkAadhaarGroup exampleStore "A1").records,
        keyLe (confKey r) (confKey k)) ∧
      analyze_duplicates_for_cleanup [mkAadhaarGroup exampleStore "A1"] = some
        { total_groups := 1, records_to_keep := [k],
          records_to_remove := rem, merge_candidates := [],
          manual_review_needed := [] }) ∧
    (classifyGroup (mkAadhaarGroup differStore "B1") = some .manual ∧
      analyze_duplicates_for_cleanup [mkAadhaarGroup differStore "B1"] = some
        { total_groups := 1, records_to_keep := [],
          records_to_remove := [], merge_candidates := [],
          manual_review_needed := [mkAadhaarGroup differStore "B1"] }) := by
  constructor
  · exact (cleanup_keeps_best_and_flags_differing_names
      [mkAadhaarGroup exampleStore "A1"] (mkAadhaarGroup exampleStore "A1")
      (List.mem_cons_self _ _) (by decide)).1 (by decide) (by decide) (by decide)
  · have h := (cleanup_keeps_best_and_flags_differing_names
      [mkAadhaarGroup differStore "B1"] (mkAadhaarGroup differStore "B1")
      (List.mem_cons_self _ _) (by decide)).2 (by decide)
    exact ⟨h.1, h.2.2⟩

/-- Claim C4 (amended) — when pre-existing duplicate values prevent the
uniqueness index, `add_unique_constraints` does not fail loudly: it returns
`False` with the database unchanged (in particular it deletes no data and
creates no index), and `migrate_aadhaar_database` merely logs a warning —
which does not instruct the caller to run the duplicate scanner — and still
reports overall success with the constraint silently skipped. -/
theorem add_unique_constraint_silently_skipped (db : SchemaDb)
    (hdup : ¬ (db.columnValues.filterMap id).Nodup) :
    (∀ t f, indexName t f ∉ db.indexes →
      add_unique_constraints db t f = (false, db)) ∧
    (indexName "extracted_fields" "Aadhaar Number" ∉ db.indexes →
      migrate_aadhaar_database db =
        (true,
         { db with backups := db.backups + 1, usersTable := true,
                   userDocsTable := true, userIdColumns := true },
         [constraintWarning])) := by
  constructor
  · intro t f hidx
    unfold add_unique_constraints
    rw [if_neg hidx, if_pos hdup]
  · intro hidx
    simp [migrate_aadhaar_database, add_unique_constraints, hidx, hdup]

/-- Counterexample to C4 as stated: on `dupDb` the duplicate values prevent
the index, yet `add_unique_constraints` returns `False` without raising,
and `migrate_aadhaar_database` reports success while the unique index was
never created — the constraint is silently skipped (though, as the claim
says, no data is deleted). -/
theorem add_unique_constraint_not_loud :
    add_unique_constraints dupDb "extracted_fields" "Aadhaar Number"
      = (false, dupDb) ∧
    (migrate_aadhaar_database dupDb).1 = true ∧
    indexName "extracted_fields" "Aadhaar Number"
      ∉ (migrate_aadhaar_database dupDb).2.1.indexes ∧
    (migrate_aadhaar_database dupDb).2.1.columnValues = dupDb.columnValues ∧
    (migrate_aadhaar_database dupDb).2.2 = [constraintWarning] := by
  refine ⟨by decide, by decide, by decide, by decide, by decide⟩

/-- Witness for C4 (amended) at `dupDb`. -/
theorem add_unique_constraint_silently_skipped_witness :
    add_unique_constraints dupDb "extracted_fields" "Aadhaar Number"
      = (false, dupDb) ∧
    migrate_aadhaar_database dupDb =
      (true,
       { dupDb with backups := 1, usersTable := true,
                    userDocsTable := true, userIdColumns := true },
       [constraintWarning]) :=
  ⟨(add_unique_constraint_silently_skipped dupDb (by decide)).1
      "extracted_fields" "Aadhaar Number" (by decide),
   (add_unique_constraint_silently_skipped dupDb (by decide)).2 (by decide)⟩

/-- Claim C2 (amended) — whenever the submitted identifier is already
present, `store_in_database` rejects with the typed duplicate error
carrying the existing document id and the full snapshot of the existing
record, and appends an audit entry (the attempted identifier and name with
the existing record), mutating nothing else; but the error's
`existing_user_id` is `None` — not the existing user's id — because the
snapshot produced by the duplicate check contains no user id. -/
theorem duplicate_rejection_shape (st : ExtractorState) (x : ExtractionResult)
    (now : Nat) (a nm : String) (ex : ExistingRecord)
    (hs : x.status = "success")
    (haad : truthy x.extracted_data.aadhaar_number = some a)
    (hname : truthy x.extracted_data.name = some nm)
    (hex : check_aadhaar_exists st.store a = some ex) :
    store_in_database st x now =
      (.duplicate
        { aadhaar_number := a, existing_user_id := none,
          existing_document_id := some ex.document_id,
          existing_record := ex },
       { st with audit := st.audit ++ [mkDupAudit x.extracted_data ex] }) := by
  unfold store_in_database validate_document_uniqueness_aadhaar
  rw [if_neg (by simp [hs]), haad, hname]
  simp only [hex, ExistingRecord.get_user_id]

/-- Counterexample to C2 as stated: the first ingestion creates user
`U1 = 0`, and the second ingestion of the same Aadhaar number is rejected
as a duplicate — but with `existing_user_id = none`, not `U1`. -/
theorem duplicate_rejection_user_id_is_none :
    (store_in_database freshExtractor ingest1 10).1 = .success 1 0 ∧
    (store_in_database (store_in_database freshExtractor ingest1 10).2
        ingest2 20).1
      = .duplicate
          { aadhaar_number := "123456789012", existing_user_id := none,
            existing_document_id := some 1,
            existing_record :=
              { field_id := 1, document_id := 1,
                aadhaar_number := some "123456789012",
                name := some "John Doe", file_path := "a.pdf",
                created_at := 10 } } ∧
    ((store_in_database (store_in_database freshExtractor ingest1 10).2
        ingest2 20).1).dupUserId = some none ∧
    some 0 ≠ (none : Option Nat) := by
  refine ⟨by decide, by decide, by decide, by decide⟩

/-- Witness for C2 (amended): the second ingestion of the scenario,
rejected with the existing record's snapshot, document id, `None` user id,
and the appended audit entry. -/
theorem duplicate_rejection_shape_witness :
    store_in_database (store_in_database freshExtractor ingest1 10).2
        ingest2 20 =
      (.duplicate
        { aadhaar_number := "123456789012", existing_user_id := none,
          existing_document_id := some 1,
          existing_record :=
            { field_id := 1, document_id := 1,
              aadhaar_number := some "123456789012",
              name := some "John Doe", file_path := "a.pdf",
              created_at := 10 } },
       { (store_in_database freshExtractor ingest1 10).2 with
          audit := (store_in_database freshExtractor ingest1 10).2.audit ++
            [mkDupAudit ingest2.extracted_data
              { field_id := 1, document_id := 1,
                aadhaar_number := some "123456789012",
                name := some "John Doe", file_path := "a.pdf",
                created_at := 10 }] }) :=
  duplicate_rejection_shape (store_in_database freshExtractor ingest1 10).2
    ingest2 20 "123456789012" "Jane Roe"
    { field_id := 1, document_id := 1,
      aadhaar_number := some "123456789012", name := some "John Doe",
      file_path := "a.pdf", created_at := 10 }
    (by decide) (by decide) (by decide) (by decide)

theorem cleanup_dry_pure (scan : Store → List DupGroup) (s : Store)
    {r : CleanupResult} {s' : Store}
    (h : cleanup_duplicates scan s true = some (r, s')) :
    s' = s ∧ ((∃ wr wk, r = .dryRun wr wk) ∨ r = .done 0 0 []) := by
  unfold cleanup_duplicates at h
  by_cases he : (scan s).isEmpty
  · rw [if_pos he] at h
    injection h with h
    injection h with h1 h2
    exact ⟨h2.symm, Or.inr h1.symm⟩
  · rw [if_neg he] at h
    cases hp : analyze_duplicates_for_cleanup (scan s) with
    | none => rw [hp] at h; cases h
    | some plan =>
      rw [hp] at h
      simp only [if_pos rfl] at h
      injection h with h
      injection h with h1 h2
      exact ⟨h2.symm, Or.inl ⟨_, _, h1.symm⟩⟩

/-- Claim C6 (amended) — a `dry_run = true` pipeline run leaves every store
(and the user manager) exactly as it was, creates zero backups, and its
cleanup step only scans/plans (its result is a dry-run report, or a
zero-removal report when there was nothing to clean up); however it does
not terminate at the duplicate-cleanup step: unless the planner crashed,
the run also executes the (read-only) integrity-verification step, and
those are exactly the two steps recorded. -/
theorem dry_run_is_pure (env : MigEnv) (st : PipeState) :
    (run_complete_migration env st true).2 = st ∧
    (run_complete_migration env st true).1.backups_created = 0 ∧
    (∀ r, (run_complete_migration env st true).1.aadhaar_cleanup = some r →
      (∃ wr wk, r = .dryRun wr wk) ∨ r = .done 0 0 []) ∧
    (∀ r, (run_complete_migration env st true).1.pan_cleanup = some r →
      (∃ wr wk, r = .dryRun wr wk) ∨ r = .done 0 0 []) ∧
    ((run_complete_migration env st true).1.final_status ≠ "failed" →
      (run_complete_migration env st true).1.steps_completed
        = ["cleanup_duplicates", "verify_integrity"]) := by
  unfold run_complete_migration
  simp only [not_true_eq_false, false_and, if_false]
  cases hra : cleanup_aadhaar_duplicates st.aadhaarStore true with
  | none =>
    exact ⟨rfl, rfl, fun r h => Option.noConfusion h,
      fun r h => Option.noConfusion h, fun h => absurd rfl h⟩
  | some ra =>
    obtain ⟨r1, s1⟩ := ra
    obtain ⟨hs1, hr1⟩ := cleanup_dry_pure scan_aadhaar_duplicates
      st.aadhaarStore hra
    cases hrp : cleanup_pan_duplicates st.panStore true with
    | none =>
      subst hs1
      exact ⟨rfl, rfl,
        fun r h => by injection h with h; exact h ▸ hr1,
        fun r h => Option.noConfusion h,
        fun h => absurd rfl h⟩
    | some rp =>
      obtain ⟨r2, s2⟩ := rp
      obtain ⟨hs2, hr2⟩ := cleanup_dry_pure scan_pan_duplicates
        st.panStore hrp
      subst hs1
      subst hs2
      refine ⟨rfl, rfl,
        fun r h => by injection h with h; exact h ▸ hr1,
        fun r h => by injection h with h; exact h ▸ hr2,
        fun _ => rfl⟩

/-- Counterexample to C6 as stated: the dry run on `examplePipe` does not
terminate at the duplicate-cleanup step — it goes on to execute the
integrity-verification step, which is recorded after `cleanup_duplicates`
in `steps_completed`. -/
theorem dry_run_does_not_terminate_at_cleanup :
    (run_complete_migration ⟨true, true⟩ examplePipe true).1.steps_completed
      = ["cleanup_duplicates", "verify_integrity"] ∧
    "verify_integrity" ∈
      (run_complete_migration ⟨true, true⟩ examplePipe true).1.steps_completed := by
  refine ⟨by decide, by decide⟩

/-- Witness for C6 (amended) at `examplePipe`. -/
theorem dry_run_is_pure_witness :
    (run_complete_migration ⟨true, true⟩ examplePipe true).2 = examplePipe ∧
    (run_complete_migration ⟨true, true⟩ examplePipe true).1.backups_created
      = 0 ∧
    ((∃ wr wk, CleanupResult.dryRun 1 1 = .dryRun wr wk) ∨
      CleanupResult.dryRun 1 1 = .done 0 0 []) ∧
    (run_complete_migration ⟨true, true⟩ examplePipe true).1.steps_completed
      = ["cleanup_duplicates", "verify_integrity"] :=
  ⟨(dry_run_is_pure ⟨true, true⟩ examplePipe).1,
   (dry_run_is_pure ⟨true, true⟩ examplePipe).2.1,
   (dry_run_is_pure ⟨true, true⟩ examplePipe).2.2.1 (.dryRun 1 1) (by decide),
   (dry_run_is_pure ⟨true, true⟩ examplePipe).2.2.2.2 (by decide)⟩

/-- Claim C7 (amended) — every pipeline run terminates with exactly one of
`completed_successfully`, `completed_with_warnings` or `failed`;
`completed_with_errors` is unreachable, because the only step that ever
appends to `steps_failed` (the schema step) raises immediately afterwards:
a failing step aborts the run with status `failed` and the pipeline does
not go on to integrity verification. -/
theorem pipeline_terminal_status (env : MigEnv) (st : PipeState)
    (d : Bool) :
    ((run_complete_migration env st d).1.final_status
        = "completed_successfully" ∨
      (run_complete_migration env st d).1.final_status
        = "completed_with_warnings" ∨
      (run_complete_migration env st d).1.final_status = "failed") ∧
    (run_complete_migration env st d).1.final_status
      ≠ "completed_with_errors" ∧
    (d = false → env.backupOk = true → env.schemaOk = false →
      (run_complete_migration env st d).1.final_status = "failed" ∧
      (run_complete_migration env st d).1.steps_failed
        = ["schema_updates"] ∧
      "verify_integrity" ∉
        (run_complete_migration env st d).1.steps_completed) := by
  have key : ∀ s : String,
      (run_complete_migration env st d).1.final_status = s →
      s = "completed_successfully" ∨ s = "completed_with_warnings" ∨
        s = "failed" := by
    unfold run_complete_migration
    by_cases h1 : ¬ d = true ∧ ¬ env.backupOk = true
    · rw [if_pos h1]
      intro s hs
      exact Or.inr (Or.inr hs.symm)
    · rw [if_neg h1]
      simp only []
      by_cases h2 : ¬ d = true ∧ ¬ env.schemaOk = true
      · rw [if_pos h2]
        intro s hs
        exact Or.inr (Or.inr hs.symm)
      · rw [if_neg h2]
        cases cleanup_aadhaar_duplicates st.aadhaarStore d with
        | none =>
          intro s hs
          exact Or.inr (Or.inr hs.symm)
        | some ra =>
          cases cleanup_pan_duplicates st.panStore d with
          | none =>
            intro s hs
            exact Or.inr (Or.inr hs.symm)
          | some rp =>
            simp only []
            intro s hs
            split at hs <;> split at hs <;>
              first
                | exact Or.inl hs.symm
                | exact Or.inr (Or.inl hs.symm)
  refine ⟨?_, ?_, ?_⟩
  · rcases key _ rfl with h | h | h <;> rw [h]
    · exact Or.inl rfl
    · exact Or.inr (Or.inl rfl)
    · exact Or.inr (Or.inr rfl)
  · rcases key _ rfl with h | h | h <;> rw [h] <;> decide
  · intro hd hb hs
    subst hd
    unfold run_complete_migration
    rw [if_neg (by simp [hb])]
    simp only []
    rw [if_pos (by simp [hs])]
    refine ⟨rfl, rfl, ?_⟩
    show "verify_integrity" ∉ (["create_backups"] : List String)
    decide

/-- Counterexample to C7 as stated: with a failing schema step the pipeline
does **not** run integrity verification for visibility and does **not**
end with `completed_with_errors` — it aborts with `failed`. -/
theorem step_failure_is_fatal :
    (run_complete_migration ⟨true, false⟩ examplePipe false).1.final_status
      = "failed" ∧
    (run_complete_migration ⟨true, false⟩ examplePipe false).1.final_status
      ≠ "completed_with_errors" ∧
    (run_complete_migration ⟨true, false⟩ examplePipe false).1.steps_failed
      = ["schema_updates"] ∧
    "verify_integrity" ∉
      (run_complete_migration ⟨true, false⟩ examplePipe
        false).1.steps_completed := by
  refine ⟨by decide, by decide, by decide, by decide⟩

/-- Witness for C7 (amended): a successful dry run ends
`completed_with_warnings`, and the failing-schema run ends `failed` without
reaching verification. -/
theorem pipeline_terminal_status_witness :
    ((run_complete_migration ⟨true, true⟩ examplePipe true).1.final_status
        = "completed_successfully" ∨
      (run_complete_migration ⟨true, true⟩ examplePipe true).1.final_status
        = "completed_with_warnings" ∨
      (run_complete_migration ⟨true, true⟩ examplePipe true).1.final_status
        = "failed") ∧
    ((run_complete_migration ⟨true, false⟩ examplePipe false).1.final_status
        = "failed" ∧
      (run_complete_migration ⟨true, false⟩ examplePipe
          false).1.steps_failed = ["schema_updates"] ∧
      "verify_integrity" ∉
        (run_complete_migration ⟨true, false⟩ examplePipe
          false).1.steps_completed) :=
  ⟨(pipeline_terminal_status ⟨true, true⟩ examplePipe true).1,
   (pipeline_terminal_status ⟨true, false⟩ examplePipe false).2.2
     rfl rfl rfl⟩

/-- Claim C10 — the scan summary severity is `HIGH` exactly when the
aadhaar duplicate-group count or the pan duplicate-group count exceeds 10;
otherwise it is `MEDIUM` exactly when either count exceeds 5; otherwise it
is `LOW`. -/
theorem summary_severity_thresholds (ad pd : List DupGroup) (qi ds : Nat) :
    ((generate_summary_statistics ad pd qi ds).severity = "HIGH" ↔
      10 < ad.length ∨ 10 < pd.length) ∧
    (¬ (10 < ad.length ∨ 10 < pd.length) →
      ((generate_summary_statistics ad pd qi ds).severity = "MEDIUM" ↔
        5 < ad.length ∨ 5 < pd.length)) ∧
    (¬ (10 < ad.length ∨ 10 < pd.length) →
      ¬ (5 < ad.length ∨ 5 < pd.length) →
      (generate_summary_statistics ad pd qi ds).severity = "LOW") := by
  by_cases h1 : 10 < ad.length ∨ 10 < pd.length
  · refine ⟨?_, fun h => absurd h1 h, fun h => absurd h1 h⟩
    simp [generate_summary_statistics, h1]
  · by_cases h2 : 5 < ad.length ∨ 5 < pd.length
    · refine ⟨?_, fun _ => ?_, fun _ h => absurd h2 h⟩
      · simp only [generate_summary_statistics, if_neg h1, if_pos h2]
        constructor
        · intro h
          exact absurd h (by decide)
        · intro h
          exact absurd h h1
      · simp only [generate_summary_statistics, if_neg h1, if_pos h2]
        simp [h2]
    · refine ⟨?_, fun _ => ?_, fun _ _ => ?_⟩
      · simp only [generate_summary_statistics, if_neg h1, if_neg h2]
        constructor
        · intro h
          exact absurd h (by decide)
        · intro h
          exact absurd h h1
      · simp only [generate_summary_statistics, if_neg h1, if_neg h2]
        constructor
        · intro h
          exact absurd h (by decide)
        · intro h
          exact absurd h h2
      · simp only [generate_summary_statistics, if_neg h1, if_neg h2]

/-- Witness for C10: six aadhaar groups and no pan groups yield `MEDIUM`;
the empty report yields `LOW`. -/
theorem summary_severity_thresholds_witness :
    ((generate_summary_statistics
        [mkAadhaarGroup exampleStore "A1", mkAadhaarGroup exampleStore "A1",
         mkAadhaarGroup exampleStore "A1", mkAadhaarGroup exampleStore "A1",
         mkAadhaarGroup exampleStore "A1", mkAadhaarGroup exampleStore "A1"]
        [] 0 2).severity = "MEDIUM" ↔
      (5 < 6 ∨ 5 < 0)) ∧
    (generate_summary_statistics [] [] 0 2).severity = "LOW" :=
  ⟨by
    have h := (summary_severity_thresholds
      [mkAadhaarGroup exampleStore "A1", mkAadhaarGroup exampleStore "A1",
       mkAadhaarGroup exampleStore "A1", mkAadhaarGroup exampleStore "A1",
       mkAadhaarGroup exampleStore "A1", mkAadhaarGroup exampleStore "A1"]
      [] 0 2).2.1 (by simp)
    simpa using h,
   (summary_severity_thresholds [] [] 0 2).2.2 (by simp) (by simp)⟩

end OCR
